import Mathlib

/-!
Verification development for the `celona-api-client` endpoint prober
(`src/api_checker.py`).

The Python program is shallowly embedded: the JSON values a service can
return become an inductive type with Python truthiness, the mock HTTP
service becomes a function from URL and headers to a call result, and
`get_call` / `batch_fetch_data` become pure Lean functions.  Side effects
(HTTP calls, the rate-limit sleep) are recorded as an explicit event
trace so that claims about "no call is made" and "no delay is applied"
are statable.
-/

namespace ApiChecker

/-- A JSON value as decoded by `response.json()`.  Numbers are modelled
as integers; the claims under study do not depend on float payloads. -/
inductive Json where
  | null : Json
  | bool (b : Bool) : Json
  | num (n : Int) : Json
  | str (s : String) : Json
  | arr (l : List Json) : Json
  | obj (l : List (String × Json)) : Json
deriving Repr

/-- Python truthiness of a decoded JSON value, as used by
`"exists" if result_json else "empty"` (line 83): `None`, `False`, `0`,
`""`, `[]` and `{}` are falsy, everything else truthy. -/
def Json.truthy : Json → Bool
  | .null => false
  | .bool b => b
  | .num n => n != 0
  | .str s => s != ""
  | .arr l => !l.isEmpty
  | .obj l => !l.isEmpty

/-- What one `requests.get` can do: return a response whose body decodes
as JSON (with its HTTP status code), or fail in one of the ways the
`except` arms of `get_call` distinguish (lines 28-35): connection error,
timeout, other request exception, or a body that is not valid JSON. -/
inductive CallResult where
  | success (status : Nat) (body : Json) : CallResult
  | connError : CallResult
  | timeout : CallResult
  | reqError : CallResult
  | notJson : CallResult
deriving Repr

/-- A mock HTTP service: a fixed mapping from URL and header list to the
behaviour of the single GET issued against it. -/
def Service : Type := String → List (String × String) → CallResult

/-- Embedding of `get_call` (lines 12-36): on success it returns the
actual status code and the decoded JSON body; every exception arm falls
through to `return 500, dict()`. -/
def get_call (svc : Service) (url : String) (headers : List (String × String)) :
    Nat × Json :=
  match svc url headers with
  | .success status body => (status, body)
  | _ => (500, Json.obj [])

/-- One entry of an operation's `parameters` list.  The `required` field
is optional in the document; the source tests
`'required' in param and param['required']` (line 64), so we keep the
field as an `Option Bool`. -/
structure Param where
  name : String
  required : Option Bool
deriving Repr, DecidableEq

/-- The `get` operation object of a path item; only its optional
`parameters` list is consulted by the prober (line 60). -/
structure GetOp where
  parameters : Option (List Param)
deriving Repr, DecidableEq

/-- A path item of the `paths` mapping; only the presence and content of
its `get` member matter to the prober (lines 50-52, 60). -/
structure PathItem where
  get : Option GetOp
deriving Repr, DecidableEq

/-- The fields of the loaded API-description document that
`batch_fetch_data` reads: `host`, `basePath` and the `paths` mapping.
Python dicts preserve insertion order and have unique keys; the mapping
is carried as an association list in document order. -/
structure ApiEndpoints where
  host : String
  basePath : String
  paths : List (String × PathItem)
deriving Repr, DecidableEq

/-- Lookup in a Python-dict-like association list (first match). -/
def dictLookup {α : Type} (d : List (String × α)) (k : String) : Option α :=
  (d.find? (fun p => p.1 == k)).map Prod.snd

/-- `item in d.keys()` for a dict modelled as an association list. -/
def hasKey {α : Type} (d : List (String × α)) (k : String) : Bool :=
  d.any (fun p => p.1 == k)

/-- Number of `/` characters in a path template (`key.count('/')`,
line 51). -/
def slashCount (s : String) : Nat :=
  (s.data.filter (fun c => c == '/')).length

/-- One recorded outcome dict (lines 70-75 and 86-91): keys `path`,
`full_url`, `code`, `result`. -/
structure Outcome where
  path : String
  full_url : String
  code : Nat
  result : String
deriving Repr, DecidableEq

/-- Observable side effects of the probing loop: an HTTP GET to a URL,
and the 1-second rate-limit sleep (line 92). -/
inductive Event where
  | call (url : String) : Event
  | sleep : Event
deriving Repr, DecidableEq

/-- The endpoint filter of lines 50-52:
`[key for key in paths.keys() if key.count('/') == 1 and 'get' in paths[key]]`. -/
def ep_list (api : ApiEndpoints) : List String :=
  (api.paths.map Prod.fst).filter
    (fun key => slashCount key == 1 &&
      ((dictLookup api.paths key).map (fun item => item.get.isSome)).getD false)

/-- The loop of lines 55-92 re-reads `api_endpoints['paths'][ep]['get']`
for each selected key; this fuses the filter with that lookup, pairing
each selected key with its `get` operation object. -/
def ep_items (api : ApiEndpoints) : List (String × GetOp) :=
  (api.paths.map Prod.fst).filterMap
    (fun key =>
      if slashCount key == 1 then
        ((dictLookup api.paths key).bind PathItem.get).map (fun g => (key, g))
      else none)

/-- The names of the parameters flagged required, in declaration order
(lines 62-64): `'required' in param and param['required']`. -/
def requiredNames (plist : List Param) : List String :=
  (plist.filter (fun p => p.required == some true)).map Param.name

/-- Lines 82-92: perform the GET, classify the body's truthiness, record
the outcome, sleep for the rate limit. -/
def doCall (svc : Service) (headers : List (String × String))
    (ep call_url : String) : Outcome × List Event :=
  let r := get_call svc call_url headers
  let result_exists := if r.2.truthy then "exists" else "empty"
  (⟨ep, call_url, r.1, result_exists⟩, [Event.call call_url, Event.sleep])

/-- The loop body of lines 55-92 for one selected endpoint: resolve
required parameters against the defaults, either record a skipped
outcome (no call, no sleep) or build the query string and perform the
call. -/
def probeStep (svc : Service) (headers : List (String × String))
    (base_url : String) (default_params : List (String × String))
    (ep : String) (gop : GetOp) : Outcome × List Event :=
  let call_url := base_url ++ ep
  match gop.parameters with
  | none => doCall svc headers ep call_url
  | some plist =>
    let params := requiredNames plist
    let params_wo_input := params.filter (fun item => !hasKey default_params item)
    if params_wo_input.length > 0 then
      (⟨ep, call_url, 500, "skipped"⟩, [])
    else if params.length > 0 then
      let param_str := String.intercalate "&"
        (params.map (fun param => param ++ "=" ++ (dictLookup default_params param).getD ""))
      doCall svc headers ep (call_url ++ "?" ++ param_str)
    else
      doCall svc headers ep call_url

/-- Embedding of `batch_fetch_data` (lines 39-94), returning both the
result list and the trace of HTTP calls and sleeps, in order. -/
def batch_fetch_data (svc : Service) (api_key : String)
    (api_endpoints : ApiEndpoints) (default_params : List (String × String)) :
    List Outcome × List Event :=
  let base_url := "https://" ++ api_endpoints.host ++ api_endpoints.basePath
  let headers := [("Accept", "application/json"), ("X-API-Key", api_key)]
  let steps := (ep_items api_endpoints).map
    (fun p => probeStep svc headers base_url default_params p.1 p.2)
  (steps.map Prod.fst, (steps.map Prod.snd).flatten)

/-- The loaded API-description mapping as the startup code sees it,
before any field is known to exist: the three keys the program reads
(`host`, `basePath`, `paths`), each possibly absent, plus a flag
recording whether the mapping carries any other keys (so that equality
with the empty dict, line 129, is represented faithfully). -/
structure RawDoc where
  host : Option String
  basePath : Option String
  paths : Option (List (String × PathItem))
  extraKeys : Bool
deriving Repr, DecidableEq

/-- The value `yaml.safe_load` hands back for the endpoints file:
`None` for an empty document, or a mapping. -/
inductive LoadedYaml where
  | pyNone : LoadedYaml
  | dict (d : RawDoc) : LoadedYaml
deriving Repr, DecidableEq

/-- The empty mapping `dict()` of line 129. -/
def emptyDict : RawDoc := ⟨none, none, none, false⟩

/-- Embedding of the `__main__` startup sequence (lines 115-133): a
YAML parse failure propagates; then the API key, the loaded document
and the defaults are validated in order; then `batch_fetch_data` reads
`host`, `basePath` and `paths`, raising (`TypeError`/`KeyError`) when
the document is `None` or lacks one of them.  Every failure is an
`Except.error` carrying no outcome list and no event trace. -/
def main_run (parse_result : Except String LoadedYaml) (api_key : String)
    (default_params : List (String × String)) (svc : Service) :
    Except String (List Outcome × List Event) :=
  match parse_result with
  | .error e => .error e
  | .ok loaded =>
    if api_key = "" then .error "API key is not valid !"
    else if loaded = .dict emptyDict then
      .error "API endpoints YAML file is not valid !"
    else if default_params = [] then .error "Default param file is not valid !"
    else
      match loaded with
      | .pyNone => .error "TypeError: NoneType object is not subscriptable"
      | .dict d =>
        match d.host, d.basePath, d.paths with
        | some h, some b, some ps =>
          .ok (batch_fetch_data svc api_key ⟨h, b, ps⟩ default_params)
        | _, _, _ => .error "KeyError"

/-- A spec document with the single first-level path `/health`, whose
GET operation declares no parameter list. -/
def healthApi : ApiEndpoints :=
  ⟨"example.com", "/api/v1", [("/health", ⟨some ⟨none⟩⟩)]⟩

/-- A mock service on which every request times out. -/
def timeoutSvc : Service := fun _ _ => CallResult.timeout

/-- A mock service answering every request with HTTP 500 and an empty
JSON object body. -/
def empty500Svc : Service := fun _ _ => CallResult.success 500 (Json.obj [])

/-- A mock service answering every request with HTTP 404 and a
non-empty JSON object body. -/
def notFoundSvc : Service :=
  fun _ _ => CallResult.success 404 (Json.obj [("error", Json.str "nope")])

/-- Every branch of the loop body records the endpoint it is processing
in the `path` field of its outcome. -/
theorem probeStep_path (svc : Service) (hd : List (String × String))
    (base : String) (defaults : List (String × String)) (ep : String)
    (gop : GetOp) :
    (probeStep svc hd base defaults ep gop).1.path = ep := by
  obtain ⟨ps⟩ := gop
  cases ps with
  | none => rfl
  | some plist =>
    simp only [probeStep]
    split
    · rfl
    · split <;> rfl

/-- Filtering the keys of a mapping by a predicate on the looked-up
value agrees with filtering the entries themselves, provided the keys
are distinct (as they are for a parsed YAML/Python mapping). -/
theorem keys_filter_lookup (L : List (String × PathItem))
    (hnd : (L.map Prod.fst).Nodup) :
    (L.map Prod.fst).filter
        (fun key => slashCount key == 1 &&
          ((dictLookup L key).map (fun item => item.get.isSome)).getD false)
      = (L.filter (fun p => slashCount p.1 == 1 && p.2.get.isSome)).map Prod.fst := by
  induction L with
  | nil => rfl
  | cons p L ih =>
    obtain ⟨k, it⟩ := p
    simp only [List.map_cons, List.nodup_cons] at hnd
    obtain ⟨hk, hnd'⟩ := hnd
    have hhead : dictLookup ((k, it) :: L) k = some it := by
      simp [dictLookup, List.find?]
    have htail : ∀ key ∈ L.map Prod.fst,
        (slashCount key == 1 &&
          ((dictLookup ((k, it) :: L) key).map (fun item => item.get.isSome)).getD false)
        = (slashCount key == 1 &&
          ((dictLookup L key).map (fun item => item.get.isSome)).getD false) := by
      intro key hmem
      have hne : ¬(k == key) = true := by
        simp only [beq_iff_eq]
        intro hkey
        exact hk (hkey ▸ hmem)
      simp [dictLookup, List.find?, hne]
    simp only [List.map_cons, List.filter_cons, hhead, Option.map_some',
      Option.getD_some, List.filter_congr htail, ih hnd', Bool.and_eq_true,
      beq_iff_eq]
    split_ifs <;> rfl

/-- The fused selector `ep_items` visits exactly the keys of `ep_list`,
in the same order. -/
theorem ep_items_map_fst (api : ApiEndpoints) :
    (ep_items api).map Prod.fst = ep_list api := by
  unfold ep_items ep_list
  generalize api.paths.map Prod.fst = keys
  induction keys with
  | nil => rfl
  | cons k ks ih =>
    simp only [List.filterMap_cons, List.filter_cons]
    rcases hslash : (slashCount k == 1) with _ | _
    · simpa [hslash] using ih
    · rcases hget : (dictLookup api.paths k).bind PathItem.get with _ | g
      · rcases hlook : dictLookup api.paths k with _ | item
        · simpa [hslash, hlook] using ih
        · have : item.get = none := by
            have := hget
            rw [hlook] at this
            simpa using this
          simpa [hslash, hlook, this] using ih
      · rcases hlook : dictLookup api.paths k with _ | item
        · rw [hlook] at hget; simp at hget
        · have : item.get = some g := by
            have := hget
            rw [hlook] at this
            simpa using this
          simpa [hslash, hlook, this] using ih

/-- C1: counterexample.  The claim states that a connection timeout on
an operation with no required parameters does not produce the outcome
`{code: 500, result: "empty"}`.  On the code it does: probing `/health`
against a service on which every request times out records exactly
`{path: "/health", code: 500, result: "empty"}`, because `get_call`
turns every exception into `(500, dict())` and the empty dict is
classified "empty". -/
theorem C1_counterexample :
    (batch_fetch_data timeoutSvc "key" healthApi [("p", "v")]).1 =
      [⟨"/health", "https://example.com/api/v1/health", 500, "empty"⟩] := by
  decide

/-- C1 (amended): a network-level failure outcome is NOT distinguishable
from an empty-but-successful JSON response — every non-success call
result (connection error, timeout, other request exception, non-JSON
body) is recorded with code 500 and result "empty", byte-for-byte the
same outcome an HTTP 500 response with an empty JSON object body
produces. -/
theorem C1_network_failure_conflated (svc : Service)
    (hd : List (String × String)) (ep url : String)
    (h : ∀ s b, svc url hd ≠ CallResult.success s b) :
    doCall svc hd ep url =
        (⟨ep, url, 500, "empty"⟩, [Event.call url, Event.sleep]) ∧
      doCall svc hd ep url = doCall empty500Svc hd ep url := by
  have hg : get_call svc url hd = (500, Json.obj []) := by
    unfold get_call
    rcases hs : svc url hd with s | _ | _ | _ | _
    · exact absurd hs (h _ _)
    all_goals rfl
  constructor
  · simp [doCall, hg, Json.truthy]
  · simp [doCall, hg, empty500Svc, get_call, Json.truthy]

/-- C1 witness: the amended theorem at a concrete timeout. -/
theorem C1_witness :
    doCall timeoutSvc [] "/health" "u" =
        (⟨"/health", "u", 500, "empty"⟩, [Event.call "u", Event.sleep]) ∧
      doCall timeoutSvc [] "/health" "u" = doCall empty500Svc [] "/health" "u" :=
  C1_network_failure_conflated timeoutSvc [] "/health" "u"
    (fun _ _ h => CallResult.noConfusion h)

/-- C2: when every required parameter name of the operation has a key in
the defaults, the URL used is the bare URL when no parameter is
required, and otherwise the bare URL followed by `?` and a query string
consisting of exactly the required parameters, each rendered
`name=value` from the defaults, joined by `&`, in declaration order;
non-required parameters never appear. -/
theorem C2_required_query_exact (svc : Service) (hd : List (String × String))
    (base ep : String) (defaults : List (String × String)) (plist : List Param)
    (hcov : ∀ n ∈ requiredNames plist, hasKey defaults n = true) :
    (probeStep svc hd base defaults ep ⟨some plist⟩).1.full_url =
      if requiredNames plist = [] then base ++ ep
      else base ++ ep ++ "?" ++ String.intercalate "&"
        ((plist.filter (fun p => p.required == some true)).map
          (fun p => p.name ++ "=" ++ (dictLookup defaults p.name).getD "")) := by
  have hwo : (requiredNames plist).filter (fun item => !hasKey defaults item) = [] := by
    rw [List.filter_eq_nil_iff]
    intro a ha
    simp [hcov a ha]
  have hmap : (requiredNames plist).map
      (fun param => param ++ "=" ++ (dictLookup defaults param).getD "")
      = (plist.filter (fun p => p.required == some true)).map
        (fun p => p.name ++ "=" ++ (dictLookup defaults p.name).getD "") := by
    unfold requiredNames
    rw [List.map_map]
    rfl
  cases hp : requiredNames plist with
  | nil => simp [probeStep, hp, hwo, doCall]
  | cons a as =>
    rw [hp] at hwo hmap
    simp [probeStep, hp, hwo, hmap, doCall]

/-- C2 witness: one required and one optional parameter, both present in
the defaults; only the required one is rendered. -/
theorem C2_witness :
    (probeStep timeoutSvc [] "https://h" [("status", "Activated"), ("opt", "x")]
        "/devices" ⟨some [⟨"status", some true⟩, ⟨"opt", some false⟩]⟩).1.full_url =
      "https://h/devices?status=Activated" := by
  rw [C2_required_query_exact timeoutSvc [] "https://h" "/devices"
    [("status", "Activated"), ("opt", "x")]
    [⟨"status", some true⟩, ⟨"opt", some false⟩] (by decide)]
  decide

/-- C3: an operation declaring zero required parameters (no parameter
list at all, or only non-required parameters) is probed at the bare
`baseUrl ++ path` with no `?` appended, and the HTTP call made is to
exactly that URL. -/
theorem C3_zero_required_bare_url (svc : Service) (hd : List (String × String))
    (base : String) (defaults : List (String × String)) (ep : String)
    (gop : GetOp) (h : ∀ plist, gop.parameters = some plist → requiredNames plist = []) :
    (probeStep svc hd base defaults ep gop).1.full_url = base ++ ep ∧
      (probeStep svc hd base defaults ep gop).2 =
        [Event.call (base ++ ep), Event.sleep] := by
  obtain ⟨ps⟩ := gop
  cases ps with
  | none => exact ⟨rfl, rfl⟩
  | some plist =>
    have h0 := h plist rfl
    simp [probeStep, h0, doCall]

/-- C3 witness: an operation whose only parameter is non-required. -/
theorem C3_witness :
    (probeStep timeoutSvc [] "https://h" [("a", "b")] "/health"
        ⟨some [⟨"opt", some false⟩]⟩).1.full_url = "https://h" ++ "/health" ∧
      (probeStep timeoutSvc [] "https://h" [("a", "b")] "/health"
        ⟨some [⟨"opt", some false⟩]⟩).2 =
        [Event.call ("https://h" ++ "/health"), Event.sleep] :=
  C3_zero_required_bare_url timeoutSvc [] "https://h" [("a", "b")] "/health"
    ⟨some [⟨"opt", some false⟩]⟩ (fun plist hp => by cases hp; rfl)

/-- C4: the selected endpoints are exactly the paths whose template has
exactly one `/` and whose path item declares a `get` operation, in the
iteration order of the underlying mapping (whose keys are distinct, as
in any parsed mapping); the rest are excluded without error. -/
theorem C4_selector_first_level_get (api : ApiEndpoints)
    (hnd : (api.paths.map Prod.fst).Nodup) :
    ep_list api =
      (api.paths.filter (fun p => slashCount p.1 == 1 && p.2.get.isSome)).map
        Prod.fst := by
  unfold ep_list
  exact keys_filter_lookup api.paths hnd

/-- A spec document mixing a first-level GET path, a nested GET path and
a first-level path without GET. -/
def mixedApi : ApiEndpoints :=
  ⟨"example.com", "/v1",
    [("/a", ⟨some ⟨none⟩⟩), ("/b/c", ⟨some ⟨none⟩⟩), ("/d", ⟨none⟩)]⟩

/-- C4 witness: on the mixed document only `/a` is selected. -/
theorem C4_witness :
    (ep_list mixedApi =
        (mixedApi.paths.filter (fun p => slashCount p.1 == 1 && p.2.get.isSome)).map
          Prod.fst) ∧
      ep_list mixedApi = ["/a"] :=
  ⟨C4_selector_first_level_get mixedApi (by decide), by decide⟩

/-- C5: an operation with a required parameter missing from the defaults
yields the skipped outcome at the unparameterized URL and contributes no
event at all: no HTTP call and no rate-limit sleep. -/
theorem C5_unresolvable_skipped_free (svc : Service) (hd : List (String × String))
    (base : String) (defaults : List (String × String)) (ep : String)
    (plist : List Param)
    (h : (requiredNames plist).filter (fun item => !hasKey defaults item) ≠ []) :
    probeStep svc hd base defaults ep ⟨some plist⟩ =
      (⟨ep, base ++ ep, 500, "skipped"⟩, ([] : List Event)) := by
  have hpos : 0 < ((requiredNames plist).filter
      (fun item => !hasKey defaults item)).length := List.length_pos.mpr h
  simp [probeStep, hpos]

/-- C5 witness: `/sites` requires `region`, which the defaults lack. -/
theorem C5_witness :
    probeStep timeoutSvc [] "https://h" [("x", "y")] "/sites"
        ⟨some [⟨"region", some true⟩]⟩ =
      (⟨"/sites", "https://h/sites", 500, "skipped"⟩, ([] : List Event)) := by
  have h := C5_unresolvable_skipped_free timeoutSvc [] "https://h" [("x", "y")]
    "/sites" [⟨"region", some true⟩] (by decide)
  exact h.trans (by decide)

/-- C6: no operation's outcome is lost and none aborts the run — the
result list carries exactly one outcome per selected endpoint, in
selection order, so its paths are the selected endpoint list and its
length is the number of eligible operations. -/
theorem C6_one_outcome_per_op (svc : Service) (key : String)
    (api : ApiEndpoints) (defaults : List (String × String)) :
    ((batch_fetch_data svc key api defaults).1).map Outcome.path = ep_list api ∧
      (batch_fetch_data svc key api defaults).1.length = (ep_list api).length := by
  have hmap : ((batch_fetch_data svc key api defaults).1).map Outcome.path
      = ep_list api := by
    unfold batch_fetch_data
    simp only [List.map_map, Function.comp_def]
    rw [← ep_items_map_fst]
    simp only [probeStep_path]
  refine ⟨hmap, ?_⟩
  rw [← hmap, List.length_map]

/-- C7: a performed call whose response decodes as JSON is recorded with
the actual HTTP status code — 2xx or not — and its result field is
"exists" iff the decoded body is truthy, else "empty". -/
theorem C7_ok_actual_status (svc : Service) (hd : List (String × String))
    (ep url : String) (s : Nat) (b : Json)
    (h : svc url hd = CallResult.success s b) :
    doCall svc hd ep url =
      (⟨ep, url, s, if b.truthy then "exists" else "empty"⟩,
        [Event.call url, Event.sleep]) := by
  simp [doCall, get_call, h]

/-- C7 witness: an HTTP 404 with a non-empty JSON object body is
recorded as code 404 with result "exists". -/
theorem C7_witness :
    doCall notFoundSvc [] "/x" "u" =
      (⟨"/x", "u", 404, "exists"⟩, [Event.call "u", Event.sleep]) := by
  have h := C7_ok_actual_status notFoundSvc [] "/x" "u" 404
    (Json.obj [("error", Json.str "nope")]) rfl
  exact h.trans (by decide)

/-- C8: startup validation is fatal and precedes all probing — a parse
failure, an empty document, a document lacking `paths` (or read as
`None`), an empty API key or empty defaults all make the run an error
carrying no outcome list and no HTTP event. -/
theorem C8_startup_validation_fatal (parse_result : Except String LoadedYaml)
    (api_key : String) (default_params : List (String × String)) (svc : Service)
    (h : (∃ e, parse_result = .error e) ∨ api_key = "" ∨
      parse_result = .ok .pyNone ∨
      (∃ d, parse_result = .ok (.dict d) ∧ (d = emptyDict ∨ d.paths = none)) ∨
      default_params = []) :
    ∃ e, main_run parse_result api_key default_params svc = .error e := by
  rcases parse_result with e | loaded
  · exact ⟨e, rfl⟩
  rcases h with ⟨e, he⟩ | hk | hn | ⟨d, hd, hcase⟩ | hdef
  · exact absurd he (by simp)
  · exact ⟨"API key is not valid !", by simp [main_run, hk]⟩
  · obtain rfl : loaded = .pyNone := by injection hn
    simp only [main_run]
    split_ifs <;> exact ⟨_, rfl⟩
  · obtain rfl : loaded = .dict d := by injection hd
    rcases hcase with rfl | hpaths
    · simp only [main_run]
      split_ifs <;> exact ⟨_, rfl⟩
    · obtain ⟨dh, db, dp, dx⟩ := d
      obtain rfl : dp = none := hpaths
      simp only [main_run]
      split_ifs <;> exact ⟨_, rfl⟩
  · subst hdef
    simp only [main_run]
    split_ifs <;> exact ⟨_, rfl⟩

/-- C8 witness: an empty API description document (loaded as `None`)
aborts the run with an error. -/
theorem C8_witness :
    ∃ e, main_run (.ok .pyNone) "k" [("a", "b")] timeoutSvc = .error e :=
  C8_startup_validation_fatal (.ok .pyNone) "k" [("a", "b")] timeoutSvc
    (Or.inr (Or.inr (Or.inl rfl)))

/-- C9: the run is a deterministic function of the spec model, the API
key, the defaults and the service's URL-to-response mapping — two runs
over equal inputs yield outcome sequences identical in length, order
and content (and identical event traces). -/
theorem C9_run_deterministic (svc1 svc2 : Service) (k1 k2 : String)
    (api1 api2 : ApiEndpoints) (d1 d2 : List (String × String))
    (hs : svc1 = svc2) (hk : k1 = k2) (ha : api1 = api2) (hd : d1 = d2) :
    batch_fetch_data svc1 k1 api1 d1 = batch_fetch_data svc2 k2 api2 d2 := by
  subst hs hk ha hd
  rfl

/-- C9 witness: two runs over the same concrete inputs coincide. -/
theorem C9_witness :
    batch_fetch_data timeoutSvc "k" healthApi [("a", "b")] =
      batch_fetch_data timeoutSvc "k" healthApi [("a", "b")] :=
  C9_run_deterministic timeoutSvc timeoutSvc "k" "k" healthApi healthApi
    [("a", "b")] [("a", "b")] rfl rfl rfl rfl

/-- C10: default values are interpolated into the query string verbatim
— for an operation requiring parameter `pname` and a default value `v`
(any string, including ones containing `&`, `=`, `?` or spaces), the
full URL is exactly `base ++ ep ++ "?" ++ pname ++ "=" ++ v`, with no
URL-encoding or escaping applied to `v`. -/
theorem C10_verbatim_no_escaping (svc : Service) (hd : List (String × String))
    (base ep pname v : String) :
    (probeStep svc hd base [(pname, v)] ep ⟨some [⟨pname, some true⟩]⟩).1.full_url
      = base ++ ep ++ "?" ++ (pname ++ "=" ++ v) := by
  simp [probeStep, requiredNames, hasKey, dictLookup, doCall, List.find?,
    String.intercalate, String.intercalate.go]

end ApiChecker
